import Mathlib

/-!
Verification development for the murder-mystery party-game repository.

The round/game state machine of `src/firebase.js` (class `FirebaseService`)
is embedded shallowly: each Firestore-backed operation becomes a pure
function on a `Game` value (the session document together with its
`players` sub-collection), errors become `Except String`, and the dynamic
Firestore field updates `roundStates.${round}` / `roundData.${round}`
become association-list updates keyed by the round ordinal (a rational
number, since the accusation round is `5.5`).

Volatile timestamp bookkeeping fields (`createdAt`, `updatedAt`,
`startedAt`, `completedAt`, `readyAt`, `lastActiveAt`, `joinedAt`) are
omitted from the state: the source itself strips exactly these fields
before comparing snapshots (`stripVolatileFields` in `src/firebase.js`),
so no modelled behaviour depends on them.  The `timestamp` field of
accusation records is kept, because it is part of the record identity
used by `arrayUnion`.

Display-layer logic that gates the engine operations
(`allPlayersReadyForRound` and the advance button in
`src/components/views/GameView.js`, the join-screen checks in
`src/App.tsx`, the character-selection flow in
`src/components/views/CharacterSelectionView.js`) is embedded alongside,
since several specified guards live there rather than in the engine.
-/

/-- One entry of a player's per-round readiness map: the object written to
`roundStates.${round}` is `{ready, readyAt}`; the volatile `readyAt`
timestamp is omitted. -/
structure RoundState where
  ready : Bool
deriving Repr, DecidableEq

/-- One record of a player's own accusation list `accusations.made`:
`{round, accusedCharacter, timestamp}` (src/firebase.js line 675). -/
structure PlayerAccusation where
  round : ℚ
  accusedCharacter : String
  timestamp : ℕ
deriving Repr, DecidableEq

/-- One record of the session's aggregate accusation list
`accusations.accusations`: `{id, accuserId, accuserCharacter,
accusedCharacter, timestamp, isCorrect}` (src/firebase.js line 684). -/
structure GameAccusation where
  id : String
  accuserId : String
  accuserCharacter : Option String
  accusedCharacter : String
  timestamp : ℕ
  isCorrect : Bool
deriving Repr, DecidableEq

/-- A player document of the `players` sub-collection, as created by
`addPlayerToGame` (src/firebase.js lines 286-314).  The document id is
`userId`.  `characterData.isMurderer` is kept as `characterDataIsMurderer`;
the free-text `secretInformation` of `characterData` is omitted. -/
structure Player where
  userId : String
  username : String
  characterName : Option String
  isHost : Bool
  isSimulated : Bool
  characterDataIsMurderer : Bool
  roundStates : List (ℚ × RoundState)
  accusationsMade : List PlayerAccusation
deriving Repr, DecidableEq

/-- The session document (src/firebase.js lines 219-264, `createGame`)
together with its `players` sub-collection.  `roundData.${round}` holds
`{startedAt, completedAt, readyPlayers}`; with the volatile timestamps
stripped only the `readyPlayers` array remains.  The field `accusations`
is the `accusations.accusations` aggregate list; its sibling constants
`accusations.round = 5.5` and `accusations.completed` are kept as
`accusationsRound` and `accusationsCompleted`. -/
structure Game where
  gameId : String
  gameScriptId : String
  status : String
  currentRound : ℚ
  roundState : String
  hostUserId : String
  hostUsername : String
  minPlayers : ℕ
  maxPlayers : ℕ
  gameState : String
  introductionShown : Bool
  roundData : List (ℚ × List String)
  accusationsRound : ℚ
  accusations : List GameAccusation
  accusationsCompleted : Bool
  players : List Player
deriving Repr, DecidableEq

/-- Firestore field-path update `m.${k} = v` on a document object:
replaces the value at key `k` when present (object keys are unique),
otherwise adds the key at the end. -/
def setKey {κ α : Type} [DecidableEq κ] : List (κ × α) → κ → α → List (κ × α)
  | [], k, v => [(k, v)]
  | e :: t, k, v => if e.1 = k then (k, v) :: t else e :: setKey t k v

/-- Read of a keyed field: `m?.[k]` (optional chaining yields `none` when
the key is absent). -/
def getKey {κ α : Type} [DecidableEq κ] : List (κ × α) → κ → Option α
  | [], _ => none
  | e :: t, k => if e.1 = k then some e.2 else getKey t k

/-- `arrayUnion(x)`: Firestore appends `x` only when no equal element is
already present. -/
def arrayUnion {α : Type} [DecidableEq α] (l : List α) (x : α) : List α :=
  if x ∈ l then l else l ++ [x]

/-- `addPlayerToGame(gameId, userId, username, isHost)` (src/firebase.js
lines 286-331): writes a fresh player document (Firestore `set`
overwrites an existing document with the same id). -/
def addPlayerToGame (g : Game) (userId username : String) (isHost : Bool) : Game :=
  let playerData : Player :=
    { userId := userId
      username := username
      characterName := none
      isHost := isHost
      isSimulated := false
      characterDataIsMurderer := false
      roundStates := []
      accusationsMade := [] }
  if g.players.any (fun p => p.userId = userId) then
    { g with players := g.players.map (fun p => if p.userId = userId then playerData else p) }
  else
    { g with players := g.players ++ [playerData] }

/-- `removePlayerFromGame(gameId, userId)` (src/firebase.js lines
334-344): hard delete of the player document. -/
def removePlayerFromGame (g : Game) (userId : String) : Game :=
  { g with players := g.players.filter (fun p => p.userId ≠ userId) }

/-- The game flow configuration produced by `parseGameFlow`
(src/gameScriptService.js lines 162-186); the per-round instruction
strings are omitted. -/
structure GameFlow where
  totalRounds : ℕ
  accusationRound : ℚ
  finalStatementRound : ℚ
  endRound : ℚ
  roundOrder : List ℚ
  maxPlayers : ℕ
  minPlayers : ℕ
deriving Repr, DecidableEq

/-- `parseGameFlow` (src/gameScriptService.js lines 162-186), applied to a
script whose metadata carries `numberOfRounds`, `maxPlayers`,
`minPlayers` (the `||` fallbacks for absent metadata are resolved by the
caller supplying the effective values). -/
def parseGameFlowOf (totalRounds maxPlayers minPlayers : ℕ) : GameFlow :=
  { totalRounds := totalRounds
    accusationRound := 5.5
    finalStatementRound := 6
    endRound := 7
    roundOrder := [1, 2, 3, 4, 5, 5.5, 6, 7]
    maxPlayers := maxPlayers
    minPlayers := minPlayers }

/-- `createGame(hostUserId, hostUsername, scriptId)` (src/firebase.js
lines 191-283): the initial session document followed by
`addPlayerToGame(gameId, hostUserId, hostUsername, true)`.  The unique
code generation and connectivity test are external; the resulting state
is parameterised by the generated `gameId` and the script's `gameFlow`. -/
def createGame (gameId scriptId hostUserId hostUsername : String) (flow : GameFlow) : Game :=
  addPlayerToGame
    { gameId := gameId
      gameScriptId := scriptId
      status := "LOBBY"
      currentRound := 0
      roundState := "WAITING_FOR_PLAYERS"
      hostUserId := hostUserId
      hostUsername := hostUsername
      minPlayers := flow.minPlayers
      maxPlayers := flow.maxPlayers
      gameState := "LOBBY"
      introductionShown := false
      roundData := []
      accusationsRound := 5.5
      accusations := []
      accusationsCompleted := false
      players := [] }
    hostUserId hostUsername true

/-- `joinGame(gameId, userId, username)` (src/firebase.js lines 347-374):
unknown game throws; an identity already present in the `players`
sub-collection is returned the current state unchanged; otherwise the
player is added.  The surrounding `catch` re-throws every failure as
`Failed to join game`. -/
def joinGame (store : Option Game) (userId username : String) : Except String Game :=
  match store with
  | none => .error "Failed to join game"
  | some g =>
    if g.players.any (fun p => p.userId = userId) then
      .ok g
    else
      .ok (addPlayerToGame g userId username false)

/-- `updatePlayerReady(gameId, userId, readyStatus, round)`
(src/firebase.js lines 442-472).  `if (round)` is JavaScript truthiness:
a `null` or `0` round falls back to the legacy whole-player flag, which
is not part of the modelled state, so that branch leaves the round map
unchanged.  The update throws when the player document is absent
(Firestore `update` semantics), re-thrown by the `catch`. -/
def updatePlayerReady (store : Option Game) (userId : String) (readyStatus : Bool)
    (round : Option ℚ) : Except String Game :=
  match store with
  | none => .error "Failed to update ready status"
  | some g =>
    if g.players.any (fun p => p.userId = userId) then
      match round with
      | some r =>
        if r ≠ 0 then
          .ok { g with players := g.players.map (fun p =>
            if p.userId = userId then
              { p with roundStates := setKey p.roundStates r { ready := readyStatus } }
            else p) }
        else .ok g
      | none => .ok g
    else
      .error "Failed to update ready status"

/-- A character entry of the raw script JSON as consumed by
`parseCharacters` (src/gameScriptService.js lines 87-118): only the
`Character` name and the truthiness of the optional `isMurderer` field
are relevant to the murderer lookup; the remaining fields are free-text
blocks copied through unchanged and are omitted here. -/
structure RawCharacter where
  character : String
  isMurderer : Bool
deriving Repr, DecidableEq

/-- A parsed character as produced by `parseCharacters`; text-only fields
omitted. -/
structure GameCharacter where
  characterName : String
  isMurderer : Bool
deriving Repr, DecidableEq

/-- The per-character body of `parseCharacters`
(src/gameScriptService.js lines 91-117), in particular line 97:
`isMurderer: character.isMurderer || character.Character === 'Penny Prattle'`. -/
def parseCharacter (c : RawCharacter) : GameCharacter :=
  { characterName := c.character
    isMurderer := c.isMurderer || c.character == "Penny Prattle" }

/-- `parseCharacters` (src/gameScriptService.js lines 87-118). -/
def parseCharacters (cs : List RawCharacter) : List GameCharacter :=
  cs.map parseCharacter

/-- `getCharacterByName` (src/gameScriptService.js lines 222-225). -/
def getCharacterByName (chars : List GameCharacter) (name : String) : Option GameCharacter :=
  chars.find? (fun c => c.characterName == name)

/-- `getMurdererCharacter` (src/gameScriptService.js lines 228-231). -/
def getMurdererCharacter (chars : List GameCharacter) : Option GameCharacter :=
  chars.find? (fun c => c.isMurderer)

/-- `getMurdererCharacters` (src/gameScriptService.js lines 234-237). -/
def getMurdererCharacters (chars : List GameCharacter) : List GameCharacter :=
  chars.filter (fun c => c.isMurderer)

/-- The successful player-document update of
`assignCharacter(gameId, userId, characterName)` (src/firebase.js lines
475-506): looks the character up in the script, then updates the player
document with the name and `characterData`.  Firestore `update` rejects
when the player document is absent; the surrounding `catch` re-throws
every failure as `Failed to assign character`. -/
def assignApply (chars : List GameCharacter) (g : Game)
    (userId characterName : String) : Game :=
  let character := getCharacterByName chars characterName
  { g with players := g.players.map (fun p =>
      if p.userId = userId then
        { p with
          characterName := some characterName
          characterDataIsMurderer :=
            match character with
            | some c => c.isMurderer
            | none => p.characterDataIsMurderer }
      else p) }

/-- The entry point of `assignCharacter`: the update rejects when the
player document is absent, otherwise applies `assignApply`. -/
def assignCharacter (chars : List GameCharacter) (store : Option Game)
    (userId characterName : String) : Except String Game :=
  match store with
  | none => .error "Failed to assign character"
  | some g =>
    if g.players.any (fun p => p.userId = userId) then
      .ok (assignApply chars g userId characterName)
    else
      .error "Failed to assign character"

/-- The guard error thrown by `startGame` when fewer than `minPlayers`
players have joined (src/firebase.js line 529). -/
def startGameCapacityError (g : Game) : String :=
  "Cannot start game: Not all players have joined. Need " ++ toString g.minPlayers ++
    " players, have " ++ toString g.players.length

/-- `startGame(gameId)` (src/firebase.js lines 514-553): fails on an
unknown game or when fewer than `minPlayers` players have joined
(`startGame` re-throws the original error); otherwise sets the session
in progress at round 1 and initialises `roundData.1`. -/
def startGame (store : Option Game) : Except String Game :=
  match store with
  | none => .error "Game not found"
  | some g =>
    if g.players.length < g.minPlayers then
      .error (startGameCapacityError g)
    else
      .ok { g with
        status := "IN_PROGRESS"
        currentRound := 1
        roundState := "ROUND_ACTIVE"
        roundData := setKey g.roundData 1 [] }

/-- The next-round computation of `advanceRound` (src/firebase.js lines
586-593): `5 ↦ 5.5`, `5.5 ↦ 6`, otherwise `+1`. -/
def nextRoundOf (currentRound : ℚ) : ℚ :=
  if currentRound = 5 then 5.5
  else if currentRound = 5.5 then 6
  else currentRound + 1

/-- The state transformation of `advanceRound(gameId)` on an existing
game (src/firebase.js lines 556-639).  The round-0 special case (lines
572-584) updates the round marker and `roundData` only and returns
early; every other advance additionally resets every player's
`roundStates.${nextRound}` to `{ready: false}` and, when the new round
is 7, marks the session completed.  No readiness guard is evaluated
anywhere in the function. -/
def advanceRoundGame (g : Game) : Game :=
  if g.currentRound = 0 then
    { g with currentRound := 1, roundData := setKey g.roundData 1 [] }
  else
    let nextRound := nextRoundOf g.currentRound
    let g1 := { g with
      currentRound := nextRound
      roundData := setKey g.roundData nextRound [] }
    let g2 := { g1 with players := g1.players.map (fun p =>
      { p with roundStates := setKey p.roundStates nextRound { ready := false } }) }
    if nextRound = 7 then
      { g2 with status := "COMPLETED", gameState := "COMPLETED" }
    else g2

/-- `advanceRound(gameId)`: only an unknown game fails (wrapped by the
`catch` as `Failed to advance round`); every existing game advances. -/
def advanceRound (store : Option Game) : Except String Game :=
  match store with
  | none => .error "Failed to advance round"
  | some g => .ok (advanceRoundGame g)

/-- `submitAccusation(gameId, userId, accusedCharacter)` (src/firebase.js
lines 659-701): rejects when the player document is absent (inner error
`Player not found`, wrapped by the `catch` as
`Failed to submit accusation`); otherwise `arrayUnion`s one record onto
the player's `accusations.made` and one onto the session's
`accusations.accusations`.  The accused name is not validated.  This is
the successful branch, parameterised by the player document read. -/
def submitApply (g : Game) (userId accusedCharacter : String)
    (timestamp : ℕ) (playerData : Player) : Game :=
  let madeRecord : PlayerAccusation :=
    { round := 5.5, accusedCharacter := accusedCharacter, timestamp := timestamp }
  let gameRecord : GameAccusation :=
    { id := "accusation_" ++ toString timestamp
      accuserId := userId
      accuserCharacter := playerData.characterName
      accusedCharacter := accusedCharacter
      timestamp := timestamp
      isCorrect := false }
  let g1 := { g with players := g.players.map (fun (p : Player) =>
    if p.userId = userId then
      { p with accusationsMade := arrayUnion p.accusationsMade madeRecord }
    else p) }
  { g1 with accusations := arrayUnion g1.accusations gameRecord }

/-- The entry point of `submitAccusation`: the player-document read
rejects an absent player, otherwise both `arrayUnion` writes of
`submitApply` are applied. -/
def submitAccusation (g : Game) (userId accusedCharacter : String)
    (timestamp : ℕ) : Except String Game :=
  match g.players.find? (fun p => p.userId == userId) with
  | none => .error "Failed to submit accusation"
  | some playerData => .ok (submitApply g userId accusedCharacter timestamp playerData)

/-- `allPlayersReadyForRound` (src/components/views/GameView.js lines
128-139): every player's `roundStates?.[currentRound]?.ready || false`. -/
def allPlayersReadyForRound (g : Game) : Bool :=
  g.players.all (fun p =>
    ((getKey p.roundStates g.currentRound).map (fun rs => rs.ready)).getD false)

/-- `hasPlayerAccused` (src/components/views/GameView.js lines 142-145):
the player has some accusation made for round 5.5. -/
def hasPlayerAccused (p : Player) : Bool :=
  p.accusationsMade.any (fun acc => acc.round == 5.5)

/-- `allAccusationsSubmitted` (src/components/views/GameView.js line
252): every player has some round-5.5 accusation. -/
def allAccusationsSubmitted (g : Game) : Bool :=
  g.players.all (fun p => p.accusationsMade.any (fun acc => acc.round == 5.5))

/-- The counts of `getAccusationStatus` (src/components/views/GameView.js
lines 148-163). -/
structure AccusationStatus where
  accused : ℕ
  total : ℕ
deriving Repr, DecidableEq

/-- `getAccusationStatus` (src/components/views/GameView.js lines
148-163), restricted to its numeric summary. -/
def getAccusationStatus (g : Game) : AccusationStatus :=
  { accused := (g.players.filter (fun p => hasPlayerAccused p)).length
    total := g.players.length }

/-- One vote registration of `getAccusationVoteTotals`: 
`if (!voteTotals[k]) voteTotals[k] = []; voteTotals[k].push(username)`. -/
def pushVote (m : List (String × List String)) (c username : String) :
    List (String × List String) :=
  setKey m c (((getKey m c).getD []) ++ [username])

/-- The initial vote map of `getAccusationVoteTotals`
(src/components/views/GameView.js lines 98-110): every script character
keyed to an empty list, then the humorous accusation option when the
script provides one (`getHumorousAccusationOption` is not part of the
sources; its result is passed in as an optional character). -/
def voteInit (chars : List GameCharacter) (humorousOption : Option GameCharacter) :
    List (String × List String) :=
  let base := chars.map (fun c => (c.characterName, ([] : List String)))
  match humorousOption with
  | some h => setKey base h.characterName []
  | none => base

/-- The per-player pass of `getAccusationVoteTotals`
(src/components/views/GameView.js lines 113-123): each accusation with
`round === 5.5` and a truthy (non-empty) accused name pushes the
player's username onto that character's list. -/
def playerVotes (m : List (String × List String)) (p : Player) :
    List (String × List String) :=
  p.accusationsMade.foldl (fun acc a =>
    if a.round == 5.5 && a.accusedCharacter != "" then
      pushVote acc a.accusedCharacter p.username
    else acc) m

/-- `getAccusationVoteTotals` (src/components/views/GameView.js lines
91-126). -/
def getAccusationVoteTotals (chars : List GameCharacter)
    (humorousOption : Option GameCharacter) (g : Game) :
    List (String × List String) :=
  g.players.foldl playerVotes (voteInit chars humorousOption)

/-- The list read for one character from a vote-totals map:
`voteTotals[characterName]`, absent keys reading as empty. -/
def votesFor (m : List (String × List String)) (c : String) : List String :=
  (getKey m c).getD []

/-- Whether the host's advance control is enabled for the current round:
at round 7 no advance control is rendered
(src/components/views/GameView.js lines 704, 777); at round 5.5 the
button is disabled unless `allAccusationsSubmitted`
(src/components/views/GameView.js line 394); at round 1 the
IntroductionView button is disabled unless all players are ready for
round 1 (src/components/views/IntroductionView.js lines 216-225, equal
to `allPlayersReadyForRound` at round 1); at every other round the
GameView button is disabled unless `allPlayersReadyForRound`
(src/components/views/GameView.js lines 510, 766). -/
def advanceControlEnabled (g : Game) : Bool :=
  if g.currentRound == 7 then false
  else if g.currentRound == 5.5 then allAccusationsSubmitted g
  else allPlayersReadyForRound g

/-- The pre-join checks of `handleJoinGame` (src/App.tsx lines 216-233),
run by the join screen before `joinGame` is ever called; `none` means
the screen proceeds to call `joinGame`. -/
def joinScreenError (g : Game) (userId : String) : Option String :=
  if g.status ≠ "LOBBY" then
    some "This game has already started. You cannot join now."
  else if g.players.length ≥ g.maxPlayers then
    some "This game is full. Cannot join."
  else if g.players.any (fun p => p.userId = userId) then
    some "You are already in this game."
  else none

/-- The `disabled` condition of the accusation submit button
(src/components/views/GameView.js line 317): disabled while no
character is selected. -/
def submitAccusationButtonDisabled (selectedAccusations : List String) : Bool :=
  selectedAccusations.length == 0

/-- JavaScript `s.startsWith(p)`, stated over the character lists of the
two strings. -/
def jsStartsWith (s p : String) : Bool :=
  p.data.isPrefixOf s.data

/-- The first player record holding `charName` through a virtual
identity (userId prefixed `player_`), as located by
`handleSelectCharacter` (src/components/views/CharacterSelectionView.js
lines 49-51). -/
def firstVirtualHolder (g : Game) (charName : String) : Option Player :=
  g.players.find? (fun p =>
    p.characterName == some charName && jsStartsWith p.userId "player_")

/-- `handleSelectCharacter`
(src/components/views/CharacterSelectionView.js lines 44-65): removes
the virtual player currently assigned the requested character, if any,
then assigns the character to the selecting player via
`selectCharacter`, an alias of `assignCharacter`. -/
def handleSelectCharacter (chars : List GameCharacter) (g : Game)
    (userId charName : String) : Except String Game :=
  let g1 :=
    match firstVirtualHolder g charName with
    | some vp => removePlayerFromGame g vp.userId
    | none => g
  assignCharacter chars (some g1) userId charName

/-- One host-mediated state change of a session, as available through
the app's screens: starting from the lobby (the start control lives on
the lobby screen only), or advancing through the enabled advance
control. -/
inductive HostStep : Game → Game → Prop
  | start (g g' : Game) : g.status = "LOBBY" → startGame (some g) = .ok g' →
      HostStep g g'
  | advance (g g' : Game) : g.status = "IN_PROGRESS" →
      advanceControlEnabled g = true → advanceRound (some g) = .ok g' →
      HostStep g g'

/-- Sessions reachable from creation through host-mediated start and
advance steps. -/
inductive HostReachable : Game → Prop
  | init (gameId scriptId hostUserId hostUsername : String) (flow : GameFlow) :
      HostReachable (createGame gameId scriptId hostUserId hostUsername flow)
  | step (g g' : Game) : HostReachable g → HostStep g g' → HostReachable g'

/-- Sessions reachable from creation by raw `startGame` / `advanceRound`
calls, with only the checks those functions perform themselves. -/
inductive Reachable : Game → Prop
  | init (gameId scriptId hostUserId hostUsername : String) (flow : GameFlow) :
      Reachable (createGame gameId scriptId hostUserId hostUsername flow)
  | start (g g' : Game) : Reachable g → startGame (some g) = .ok g' → Reachable g'
  | adv (g : Game) : Reachable g → Reachable (advanceRoundGame g)

/-- The enumerated round sequence of the specification:
`pending(0), 1, 2, 3, 4, 5, 5.5, 6, 7`. -/
def roundSequence : List ℚ := [0, 1, 2, 3, 4, 5, 5.5, 6, 7]

/-- The successor function of the enumerated round sequence, stated from
the specification's transition table (not from the code): the immediate
successor within `pending, 1, 2, 3, 4, 5, 5.5, 6, 7`. -/
def specRoundSuccessor (r : ℚ) : ℚ :=
  if r = 0 then 1
  else if r = 5 then 5.5
  else if r = 5.5 then 6
  else r + 1

/-- The state invariant maintained by host-mediated operation: the round
marker stays within the enumerated sequence, a lobby session is still at
the pending marker, and completion coincides with the terminal round. -/
def SessionInv (g : Game) : Prop :=
  g.currentRound ∈ roundSequence ∧
  (g.status = "LOBBY" → g.currentRound = 0) ∧
  (g.status = "COMPLETED" ↔ g.currentRound = 7)

/-- A fresh player document as `addPlayerToGame` creates it, used to
build concrete test sessions. -/
def basePlayer (uid uname : String) : Player :=
  { userId := uid
    username := uname
    characterName := none
    isHost := false
    isSimulated := false
    characterDataIsMurderer := false
    roundStates := []
    accusationsMade := [] }

/-- A concrete in-progress session at round 2 whose second player is not
ready for round 2. -/
def c1Game : Game :=
  { gameId := "C1GAME"
    gameScriptId := "1"
    status := "IN_PROGRESS"
    currentRound := 2
    roundState := "ROUND_ACTIVE"
    hostUserId := "u1"
    hostUsername := "Ann"
    minPlayers := 2
    maxPlayers := 8
    gameState := "LOBBY"
    introductionShown := false
    roundData := [(1, []), (2, [])]
    accusationsRound := 5.5
    accusations := []
    accusationsCompleted := false
    players :=
      [{ basePlayer "u1" "Ann" with
          isHost := true
          roundStates := [(1, { ready := true }), (2, { ready := true })] },
       { basePlayer "u2" "Ben" with
          roundStates := [(1, { ready := true })] }] }

/-- A concrete lobby session at the pending marker whose host already
carries a round-1 readiness entry set to `true`. -/
def c2Game : Game :=
  { gameId := "C2GAME"
    gameScriptId := "1"
    status := "LOBBY"
    currentRound := 0
    roundState := "WAITING_FOR_PLAYERS"
    hostUserId := "h2"
    hostUsername := "Hui"
    minPlayers := 2
    maxPlayers := 8
    gameState := "LOBBY"
    introductionShown := false
    roundData := []
    accusationsRound := 5.5
    accusations := []
    accusationsCompleted := false
    players :=
      [{ basePlayer "h2" "Hui" with
          isHost := true
          roundStates := [(1, { ready := true })] }] }

/-- A concrete in-progress session at round 2 with two players. -/
def c2wGame : Game :=
  { gameId := "C2WGAME"
    gameScriptId := "1"
    status := "IN_PROGRESS"
    currentRound := 2
    roundState := "ROUND_ACTIVE"
    hostUserId := "w1"
    hostUsername := "Wes"
    minPlayers := 2
    maxPlayers := 8
    gameState := "LOBBY"
    introductionShown := false
    roundData := [(1, []), (2, [])]
    accusationsRound := 5.5
    accusations := []
    accusationsCompleted := false
    players :=
      [{ basePlayer "w1" "Wes" with
          isHost := true
          roundStates := [(1, { ready := true }), (2, { ready := true })] },
       { basePlayer "w2" "Xia" with
          roundStates := [(1, { ready := true })] }] }

/-- A single-player game flow (minimum one player), so the host alone can
start the game. -/
def c3Flow : GameFlow := parseGameFlowOf 7 8 1

/-- A freshly created session for the round-marker counterexample. -/
def c3g0 : Game := createGame "C3GAME" "1" "h3" "Hal" c3Flow

/-- The session `c3g0` after `startGame`. -/
def c3g1 : Game :=
  { c3g0 with
    status := "IN_PROGRESS"
    currentRound := 1
    roundState := "ROUND_ACTIVE"
    roundData := setKey c3g0.roundData 1 [] }

/-- The session `c3g1` after eight raw `advanceRound` calls: through
rounds 2, 3, 4, 5, 5.5, 6, 7 and one call past the terminal round. -/
def c3Bad : Game :=
  advanceRoundGame (advanceRoundGame (advanceRoundGame (advanceRoundGame
    (advanceRoundGame (advanceRoundGame (advanceRoundGame
      (advanceRoundGame c3g1)))))))

/-- A two-player game flow for the status counterexample. -/
def c4Flow : GameFlow := parseGameFlowOf 7 8 2

/-- A freshly created lobby session. -/
def c4Game : Game := createGame "C4GAME" "1" "h4" "Hana" c4Flow

/-- The lobby session `c4Game` after one raw `advanceRound` call: the
round-0 special case bumps the round marker without touching `status`. -/
def c4Bad : Game := advanceRoundGame c4Game

/-- A concrete session at the accusation round with two players. -/
def c5Game : Game :=
  { gameId := "C5GAME"
    gameScriptId := "1"
    status := "IN_PROGRESS"
    currentRound := 5.5
    roundState := "ROUND_ACTIVE"
    hostUserId := "u1"
    hostUsername := "Ann"
    minPlayers := 2
    maxPlayers := 8
    gameState := "LOBBY"
    introductionShown := false
    roundData := [(1, [])]
    accusationsRound := 5.5
    accusations := []
    accusationsCompleted := false
    players :=
      [{ basePlayer "u1" "Ann" with
          isHost := true
          characterName := some "Miss Scarlett" },
       basePlayer "u2" "Ben"] }

/-- A concrete full lobby session: capacity one, one joined player. -/
def c6Full : Game :=
  { gameId := "C6FULL"
    gameScriptId := "1"
    status := "LOBBY"
    currentRound := 0
    roundState := "WAITING_FOR_PLAYERS"
    hostUserId := "h6"
    hostUsername := "Hire"
    minPlayers := 1
    maxPlayers := 1
    gameState := "LOBBY"
    introductionShown := false
    roundData := []
    accusationsRound := 5.5
    accusations := []
    accusationsCompleted := false
    players := [{ basePlayer "h6" "Hire" with isHost := true }] }

/-- A concrete session that is no longer in the lobby phase. -/
def c6Started : Game :=
  { c6Full with gameId := "C6START", status := "IN_PROGRESS", currentRound := 1 }

/-- The character roster used by the character-selection scenario. -/
def c7Chars : List GameCharacter :=
  [{ characterName := "Colonel Mustard", isMurderer := false },
   { characterName := "Penny Prattle", isMurderer := true }]

/-- A concrete lobby session in which a virtual player (identity prefixed
`player_`) holds the character Colonel Mustard and a real host has no
character yet. -/
def c7Game : Game :=
  { gameId := "C7GAME"
    gameScriptId := "1"
    status := "LOBBY"
    currentRound := 0
    roundState := "WAITING_FOR_PLAYERS"
    hostUserId := "h7"
    hostUsername := "Hope"
    minPlayers := 2
    maxPlayers := 8
    gameState := "LOBBY"
    introductionShown := false
    roundData := []
    accusationsRound := 5.5
    accusations := []
    accusationsCompleted := false
    players :=
      [{ basePlayer "h7" "Hope" with isHost := true },
       { basePlayer "player_1" "Virtual Mustard" with
          characterName := some "Colonel Mustard" }] }

/-- A concrete lobby session below the script minimum of two players. -/
def c8Game1 : Game :=
  { gameId := "C8ONE"
    gameScriptId := "1"
    status := "LOBBY"
    currentRound := 0
    roundState := "WAITING_FOR_PLAYERS"
    hostUserId := "h8"
    hostUsername := "Hava"
    minPlayers := 2
    maxPlayers := 8
    gameState := "LOBBY"
    introductionShown := false
    roundData := []
    accusationsRound := 5.5
    accusations := []
    accusationsCompleted := false
    players := [{ basePlayer "h8" "Hava" with isHost := true }] }

/-- A concrete lobby session meeting the script minimum of two players. -/
def c8Game2 : Game :=
  { c8Game1 with
    gameId := "C8TWO"
    players := [{ basePlayer "h8" "Hava" with isHost := true },
                basePlayer "u2" "Ben"] }

/-- The character roster used by the accusation scenario. -/
def c9Chars : List GameCharacter :=
  [{ characterName := "Colonel Mustard", isMurderer := false },
   { characterName := "Miss Scarlett", isMurderer := false }]

/-- A concrete session at the accusation round whose first player has a
character and no accusations yet. -/
def c9Game : Game :=
  { gameId := "C9GAME"
    gameScriptId := "1"
    status := "IN_PROGRESS"
    currentRound := 5.5
    roundState := "ROUND_ACTIVE"
    hostUserId := "v1"
    hostUsername := "Ada"
    minPlayers := 2
    maxPlayers := 8
    gameState := "LOBBY"
    introductionShown := false
    roundData := [(1, [])]
    accusationsRound := 5.5
    accusations := []
    accusationsCompleted := false
    players :=
      [{ basePlayer "v1" "Ada" with
          isHost := true
          characterName := some "Miss Scarlett" },
       basePlayer "v2" "Bo"] }

/-- A raw character list whose Penny Prattle entry carries no murderer
flag. -/
def c10Raw : List RawCharacter :=
  [{ character := "Lord Fauntleroy", isMurderer := false },
   { character := "Penny Prattle", isMurderer := false }]

/-! ## Helper lemmas -/

theorem getKey_setKey_self {κ α : Type} [DecidableEq κ]
    (m : List (κ × α)) (k : κ) (v : α) : getKey (setKey m k v) k = some v := by
  induction m with
  | nil => simp [setKey, getKey]
  | cons e t ih =>
    by_cases he : e.1 = k
    · simp [setKey, getKey, he]
    · simpa [setKey, getKey, he] using ih

theorem getKey_setKey_ne {κ α : Type} [DecidableEq κ]
    (m : List (κ × α)) (k k' : κ) (v : α) (h : k' ≠ k) :
    getKey (setKey m k v) k' = getKey m k' := by
  induction m with
  | nil => simp [setKey, getKey, Ne.symm h]
  | cons e t ih =>
    by_cases he : e.1 = k
    · subst he
      simp [setKey, getKey, Ne.symm h]
    · by_cases he' : e.1 = k'
      · simp [setKey, getKey, he, he', h]
      · simp [setKey, getKey, he, he', h, ih]

theorem mem_arrayUnion_self {α : Type} [DecidableEq α] (l : List α) (x : α) :
    x ∈ arrayUnion l x := by
  by_cases h : x ∈ l <;> simp [arrayUnion, h]

theorem arrayUnion_of_not_mem {α : Type} [DecidableEq α] (l : List α) (x : α)
    (h : x ∉ l) : arrayUnion l x = l ++ [x] := by
  simp [arrayUnion, h]

theorem advanceRoundGame_currentRound (g : Game) :
    (advanceRoundGame g).currentRound =
      if g.currentRound = 0 then 1 else nextRoundOf g.currentRound := by
  by_cases h : g.currentRound = 0
  · simp [advanceRoundGame, h]
  · simp only [advanceRoundGame, if_neg h]
    split <;> rfl

theorem advanceRoundGame_status_of_zero (g : Game) (h : g.currentRound = 0) :
    (advanceRoundGame g).status = g.status := by
  simp [advanceRoundGame, h]

theorem advanceRoundGame_status (g : Game) (h : g.currentRound ≠ 0) :
    (advanceRoundGame g).status =
      if nextRoundOf g.currentRound = 7 then "COMPLETED" else g.status := by
  simp only [advanceRoundGame, if_neg h]
  split <;> rfl

theorem specRoundSuccessor_eq_nextRoundOf (r : ℚ) (h : r ≠ 0) :
    specRoundSuccessor r = nextRoundOf r := by
  simp [specRoundSuccessor, nextRoundOf, h]

theorem createGame_sessionInv (gameId scriptId hostUserId hostUsername : String)
    (flow : GameFlow) :
    SessionInv (createGame gameId scriptId hostUserId hostUsername flow) := by
  refine ⟨?_, ?_, ?_⟩ <;>
    simp [SessionInv, createGame, addPlayerToGame, roundSequence]

theorem hostStep_inv (g g' : Game) (hg : SessionInv g) (hs : HostStep g g') :
    SessionInv g' := by
  obtain ⟨hmem, hlob, hcomp⟩ := hg
  cases hs with
  | start hl hok =>
    by_cases hlt : g.players.length < g.minPlayers
    · simp [startGame, hlt] at hok
    · simp only [startGame, if_neg hlt, Except.ok.injEq] at hok
      subst hok
      refine ⟨?_, ?_, ?_⟩ <;> simp [roundSequence]
  | advance hst hen hok =>
    simp only [advanceRound, Except.ok.injEq] at hok
    subst hok
    have hr7 : g.currentRound ≠ 7 := by
      intro h7
      have : g.status = "COMPLETED" := hcomp.mpr h7
      rw [hst] at this
      exact absurd this (by decide)
    by_cases hr0 : g.currentRound = 0
    · refine ⟨?_, ?_, ?_⟩
      · rw [advanceRoundGame_currentRound, if_pos hr0]
        simp [roundSequence]
      · intro hlb
        rw [advanceRoundGame_status_of_zero g hr0, hst] at hlb
        exact absurd hlb (by decide)
      · rw [advanceRoundGame_status_of_zero g hr0, hst,
          advanceRoundGame_currentRound, if_pos hr0]
        constructor
        · intro h; exact absurd h (by decide)
        · intro h; exact absurd h (by norm_num)
    · have hmem' : g.currentRound = 1 ∨ g.currentRound = 2 ∨ g.currentRound = 3 ∨
          g.currentRound = 4 ∨ g.currentRound = 5 ∨ g.currentRound = 5.5 ∨
          g.currentRound = 6 := by
        simp only [roundSequence, List.mem_cons, List.not_mem_nil, or_false] at hmem
        tauto
      have hround := advanceRoundGame_currentRound g
      have hstatus := advanceRoundGame_status g hr0
      rw [if_neg hr0] at hround
      rcases hmem' with h|h|h|h|h|h|h
      · rw [h] at hround hstatus
        rw [show nextRoundOf (1 : ℚ) = (2 : ℚ) by norm_num [nextRoundOf]] at hround hstatus
        rw [if_neg (by norm_num : ¬((2 : ℚ) = 7))] at hstatus
        refine ⟨?_, ?_, ?_⟩
        · rw [hround]; norm_num [roundSequence]
        · intro hlb
          rw [hstatus, hst] at hlb
          exact absurd hlb (by decide)
        · rw [hstatus, hst, hround]
          constructor
          · intro hh; exact absurd hh (by decide)
          · intro hh; exact absurd hh (by norm_num)
      · rw [h] at hround hstatus
        rw [show nextRoundOf (2 : ℚ) = (3 : ℚ) by norm_num [nextRoundOf]] at hround hstatus
        rw [if_neg (by norm_num : ¬((3 : ℚ) = 7))] at hstatus
        refine ⟨?_, ?_, ?_⟩
        · rw [hround]; norm_num [roundSequence]
        · intro hlb
          rw [hstatus, hst] at hlb
          exact absurd hlb (by decide)
        · rw [hstatus, hst, hround]
          constructor
          · intro hh; exact absurd hh (by decide)
          · intro hh; exact absurd hh (by norm_num)
      · rw [h] at hround hstatus
        rw [show nextRoundOf (3 : ℚ) = (4 : ℚ) by norm_num [nextRoundOf]] at hround hstatus
        rw [if_neg (by norm_num : ¬((4 : ℚ) = 7))] at hstatus
        refine ⟨?_, ?_, ?_⟩
        · rw [hround]; norm_num [roundSequence]
        · intro hlb
          rw [hstatus, hst] at hlb
          exact absurd hlb (by decide)
        · rw [hstatus, hst, hround]
          constructor
          · intro hh; exact absurd hh (by decide)
          · intro hh; exact absurd hh (by norm_num)
      · rw [h] at hround hstatus
        rw [show nextRoundOf (4 : ℚ) = (5 : ℚ) by norm_num [nextRoundOf]] at hround hstatus
        rw [if_neg (by norm_num : ¬((5 : ℚ) = 7))] at hstatus
        refine ⟨?_, ?_, ?_⟩
        · rw [hround]; norm_num [roundSequence]
        · intro hlb
          rw [hstatus, hst] at hlb
          exact absurd hlb (by decide)
        · rw [hstatus, hst, hround]
          constructor
          · intro hh; exact absurd hh (by decide)
          · intro hh; exact absurd hh (by norm_num)
      · rw [h] at hround hstatus
        rw [show nextRoundOf (5 : ℚ) = (5.5 : ℚ) by norm_num [nextRoundOf]] at hround hstatus
        rw [if_neg (by norm_num : ¬((5.5 : ℚ) = 7))] at hstatus
        refine ⟨?_, ?_, ?_⟩
        · rw [hround]; norm_num [roundSequence]
        · intro hlb
          rw [hstatus, hst] at hlb
          exact absurd hlb (by decide)
        · rw [hstatus, hst, hround]
          constructor
          · intro hh; exact absurd hh (by decide)
          · intro hh; exact absurd hh (by norm_num)
      · rw [h] at hround hstatus
        rw [show nextRoundOf (5.5 : ℚ) = (6 : ℚ) by norm_num [nextRoundOf]] at hround hstatus
        rw [if_neg (by norm_num : ¬((6 : ℚ) = 7))] at hstatus
        refine ⟨?_, ?_, ?_⟩
        · rw [hround]; norm_num [roundSequence]
        · intro hlb
          rw [hstatus, hst] at hlb
          exact absurd hlb (by decide)
        · rw [hstatus, hst, hround]
          constructor
          · intro hh; exact absurd hh (by decide)
          · intro hh; exact absurd hh (by norm_num)
      · rw [h] at hround hstatus
        rw [show nextRoundOf (6 : ℚ) = (7 : ℚ) by norm_num [nextRoundOf]] at hround hstatus
        rw [if_pos rfl] at hstatus
        refine ⟨?_, ?_, ?_⟩
        · rw [hround]; norm_num [roundSequence]
        · intro hlb
          rw [hstatus] at hlb
          exact absurd hlb (by decide)
        · rw [hstatus, hround]
          simp

theorem hostReachable_inv (g : Game) (h : HostReachable g) : SessionInv g := by
  induction h with
  | init gameId scriptId hostUserId hostUsername flow =>
    exact createGame_sessionInv gameId scriptId hostUserId hostUsername flow
  | step g g' _ hs ih => exact hostStep_inv g g' ih hs

/-! ## C1 -/

/-- C1 counterexample: a concrete session at round 2 in which not every
player is ready, yet `advanceRound` succeeds and moves the round marker
to 3 — refuting the claim that the advance operation itself rejects the
call and leaves the state unchanged. -/
theorem advanceRound_guard_counterexample :
    allPlayersReadyForRound c1Game = false ∧
    advanceRound (some c1Game) = .ok (advanceRoundGame c1Game) ∧
    (advanceRoundGame c1Game).currentRound = 3 := by
  refine ⟨?_, rfl, ?_⟩
  · norm_num [allPlayersReadyForRound, c1Game, basePlayer, getKey]
  · rw [advanceRoundGame_currentRound]
    norm_num [c1Game, nextRoundOf]

/-- C1 (amended): the readiness guard on a host round-advance is
enforced by the display layer, not by the advance operation itself:
whenever not all joined players are ready for the current
(non-accusation) round, the host's advance control is disabled, but the
`advanceRound` operation performs no readiness check — invoked directly
it succeeds and changes the round marker. -/
theorem advanceRound_lacks_readiness_guard (g : Game)
    (hready : allPlayersReadyForRound g = false)
    (h55 : g.currentRound ≠ 5.5) :
    advanceRound (some g) = .ok (advanceRoundGame g) ∧
    (advanceRoundGame g).currentRound ≠ g.currentRound ∧
    advanceControlEnabled g = false := by
  refine ⟨rfl, ?_, ?_⟩
  · rw [advanceRoundGame_currentRound]
    by_cases h0 : g.currentRound = 0
    · rw [if_pos h0, h0]; norm_num
    · rw [if_neg h0]
      unfold nextRoundOf
      split_ifs with h5
      · rw [h5]; norm_num
      · intro hh
        have := congrArg (fun x => x - g.currentRound) hh
        simp at this
  · unfold advanceControlEnabled
    split_ifs with h7 h55'
    · rfl
    · rw [beq_iff_eq] at h55'
      exact absurd h55' h55
    · exact hready

/-- C1 witness: the amended theorem at the concrete round-2 session. -/
theorem advanceRound_lacks_readiness_guard_witness :
    (allPlayersReadyForRound c1Game = false ∧ c1Game.currentRound ≠ 5.5) ∧
    (advanceRound (some c1Game) = .ok (advanceRoundGame c1Game) ∧
     (advanceRoundGame c1Game).currentRound ≠ c1Game.currentRound ∧
     advanceControlEnabled c1Game = false) :=
  ⟨⟨by norm_num [allPlayersReadyForRound, c1Game, basePlayer, getKey],
    by norm_num [c1Game]⟩,
   advanceRound_lacks_readiness_guard c1Game
     (by norm_num [allPlayersReadyForRound, c1Game, basePlayer, getKey])
     (by norm_num [c1Game])⟩

/-! ## C2 -/

/-- C2 counterexample: advancing the concrete lobby session out of the
introduction special case (marker 0) moves the round marker to 1 but
performs no readiness reset — the only joined player keeps a round-1
readiness entry of `true`, refuting the claim for the first advances out
of the early rounds. -/
theorem advanceRound_intro_reset_counterexample :
    (advanceRoundGame c2Game).currentRound = 1 ∧
    (advanceRoundGame c2Game).players.map (fun p => getKey p.roundStates 1) =
      [some { ready := true }] := by
  constructor
  · rw [advanceRoundGame_currentRound]
    norm_num [c2Game]
  · norm_num [advanceRoundGame, c2Game, basePlayer, getKey]

/-- C2 (amended): every successful advance from a round other than the
round-0 introduction special case pairs the round-marker update with a
readiness reset — afterwards every currently joined player (virtual and
real alike) has the readiness entry for the new round set to
`{ready := false}`; the advance out of marker 0 performs no per-player
reset. -/
theorem advanceRound_resets_readiness (g : Game) (h0 : g.currentRound ≠ 0) :
    (advanceRoundGame g).currentRound = nextRoundOf g.currentRound ∧
    ∀ p ∈ (advanceRoundGame g).players,
      getKey p.roundStates (advanceRoundGame g).currentRound =
        some { ready := false } := by
  constructor
  · rw [advanceRoundGame_currentRound, if_neg h0]
  · intro p hp
    rw [advanceRoundGame_currentRound, if_neg h0]
    by_cases h7 : nextRoundOf g.currentRound = 7
    · simp only [advanceRoundGame, if_neg h0, if_pos h7, List.mem_map] at hp
      obtain ⟨q, hq, rfl⟩ := hp
      exact getKey_setKey_self q.roundStates (nextRoundOf g.currentRound) _
    · simp only [advanceRoundGame, if_neg h0, if_neg h7, List.mem_map] at hp
      obtain ⟨q, hq, rfl⟩ := hp
      exact getKey_setKey_self q.roundStates (nextRoundOf g.currentRound) _

/-- C2 witness: the amended theorem at a concrete round-2 session with
two players. -/
theorem advanceRound_resets_readiness_witness :
    c2wGame.currentRound ≠ 0 ∧
    ((advanceRoundGame c2wGame).currentRound = nextRoundOf c2wGame.currentRound ∧
     ∀ p ∈ (advanceRoundGame c2wGame).players,
       getKey p.roundStates (advanceRoundGame c2wGame).currentRound =
         some { ready := false }) :=
  ⟨by norm_num [c2wGame],
   advanceRound_resets_readiness c2wGame (by norm_num [c2wGame])⟩

/-! ## C3 -/

/-- C3 counterexample: a session reachable by one start and eight raw
advance calls carries round marker 8 — the marker leaves the terminal
value 7 and the enumerated sequence entirely, refuting the claim for
unrestricted start/advance sequences. -/
theorem roundSequence_counterexample :
    Reachable c3Bad ∧ c3Bad.currentRound = 8 ∧ c3Bad.currentRound ∉ roundSequence := by
  have hstart : startGame (some c3g0) = .ok c3g1 := by
    simp [startGame, c3g0, c3g1, createGame, addPlayerToGame, c3Flow, parseGameFlowOf]
  have h1 : c3g1.currentRound = 1 := by norm_num [c3g1]
  have h2 : (advanceRoundGame c3g1).currentRound = 2 := by
    rw [advanceRoundGame_currentRound, h1]; norm_num [nextRoundOf]
  have h3 : (advanceRoundGame (advanceRoundGame c3g1)).currentRound = 3 := by
    rw [advanceRoundGame_currentRound, h2]; norm_num [nextRoundOf]
  have h4 : (advanceRoundGame (advanceRoundGame (advanceRoundGame c3g1))).currentRound = 4 := by
    rw [advanceRoundGame_currentRound, h3]; norm_num [nextRoundOf]
  have h5 : (advanceRoundGame (advanceRoundGame (advanceRoundGame
      (advanceRoundGame c3g1)))).currentRound = 5 := by
    rw [advanceRoundGame_currentRound, h4]; norm_num [nextRoundOf]
  have h55 : (advanceRoundGame (advanceRoundGame (advanceRoundGame (advanceRoundGame
      (advanceRoundGame c3g1))))).currentRound = 5.5 := by
    rw [advanceRoundGame_currentRound, h5]; norm_num [nextRoundOf]
  have h6 : (advanceRoundGame (advanceRoundGame (advanceRoundGame (advanceRoundGame
      (advanceRoundGame (advanceRoundGame c3g1)))))).currentRound = 6 := by
    rw [advanceRoundGame_currentRound, h55]; norm_num [nextRoundOf]
  have h7 : (advanceRoundGame (advanceRoundGame (advanceRoundGame (advanceRoundGame
      (advanceRoundGame (advanceRoundGame (advanceRoundGame c3g1))))))).currentRound = 7 := by
    rw [advanceRoundGame_currentRound, h6]; norm_num [nextRoundOf]
  have h8 : c3Bad.currentRound = 8 := by
    rw [c3Bad, advanceRoundGame_currentRound, h7]; norm_num [nextRoundOf]
  refine ⟨?_, h8, ?_⟩
  · rw [c3Bad]
    exact Reachable.adv _ (Reachable.adv _ (Reachable.adv _ (Reachable.adv _
      (Reachable.adv _ (Reachable.adv _ (Reachable.adv _ (Reachable.adv _
        (Reachable.start c3g0 c3g1
          (Reachable.init "C3GAME" "1" "h3" "Hal" c3Flow) hstart))))))))
  · rw [h8]
    norm_num [roundSequence]

/-- C3 (amended): across host-mediated operation — start issued from the
lobby, advance issued through the enabled advance control (which does
not exist at the terminal round) — the round marker stays within the
enumerated sequence `pending(0), 1, 2, 3, 4, 5, 5.5, 6, 7` and every
step moves it to its immediate successor in that order; a raw
`advanceRound` call at the terminal round 7 instead moves the marker to
8. -/
theorem hostRounds_follow_sequence (g : Game) (h : HostReachable g) :
    g.currentRound ∈ roundSequence ∧
    ∀ g', HostStep g g' → g'.currentRound = specRoundSuccessor g.currentRound := by
  have inv := hostReachable_inv g h
  refine ⟨inv.1, ?_⟩
  intro g' hs
  cases hs with
  | start hl hok =>
    have h0 : g.currentRound = 0 := inv.2.1 hl
    by_cases hlt : g.players.length < g.minPlayers
    · simp [startGame, hlt] at hok
    · simp only [startGame, if_neg hlt, Except.ok.injEq] at hok
      subst hok
      show (1 : ℚ) = specRoundSuccessor g.currentRound
      rw [h0]
      norm_num [specRoundSuccessor]
  | advance hst hen hok =>
    simp only [advanceRound, Except.ok.injEq] at hok
    subst hok
    rw [advanceRoundGame_currentRound]
    by_cases h0 : g.currentRound = 0
    · rw [if_pos h0, h0]
      norm_num [specRoundSuccessor]
    · rw [if_neg h0, specRoundSuccessor_eq_nextRoundOf _ h0]

/-- C3 witness: the amended theorem at a freshly created session. -/
theorem hostRounds_follow_sequence_witness :
    (createGame "W3GAME" "1" "w3" "Wyn" c3Flow).currentRound ∈ roundSequence ∧
    ∀ g', HostStep (createGame "W3GAME" "1" "w3" "Wyn" c3Flow) g' →
      g'.currentRound =
        specRoundSuccessor (createGame "W3GAME" "1" "w3" "Wyn" c3Flow).currentRound :=
  hostRounds_follow_sequence _ (HostReachable.init "W3GAME" "1" "w3" "Wyn" c3Flow)

/-! ## C4 -/

/-- C4 counterexample: one raw `advanceRound` call on a freshly created
lobby session leaves `status` at `LOBBY` while moving the round marker
to 1, refuting the claim that `LOBBY` status implies the pre-start
sentinel 0 for arbitrary operation sequences. -/
theorem statusInvariant_counterexample :
    Reachable c4Bad ∧ c4Bad.status = "LOBBY" ∧ c4Bad.currentRound = 1 ∧
    c4Bad.currentRound ≠ 0 := by
  have h0 : c4Game.currentRound = 0 := by
    norm_num [c4Game, createGame, addPlayerToGame]
  refine ⟨?_, ?_, ?_, ?_⟩
  · rw [c4Bad]
    exact Reachable.adv _ (Reachable.init "C4GAME" "1" "h4" "Hana" c4Flow)
  · rw [c4Bad, advanceRoundGame_status_of_zero _ h0]
    norm_num [c4Game, createGame, addPlayerToGame]
  · rw [c4Bad, advanceRoundGame_currentRound, if_pos h0]
  · rw [c4Bad, advanceRoundGame_currentRound, if_pos h0]
    norm_num

/-- C4 (amended): across host-mediated operation (start from the lobby,
advance only through the enabled in-game control), the session `status`
equals `COMPLETED` exactly when the round marker is at the terminal
round 7, and `LOBBY` status implies the pre-start sentinel 0; a raw
`advanceRound` call in the lobby breaks the latter. -/
theorem statusMatchesRound (g : Game) (h : HostReachable g) :
    (g.status = "COMPLETED" ↔ g.currentRound = 7) ∧
    (g.status = "LOBBY" → g.currentRound = 0) :=
  ⟨(hostReachable_inv g h).2.2, (hostReachable_inv g h).2.1⟩

/-- C4 witness: the amended theorem at a freshly created session. -/
theorem statusMatchesRound_witness :
    ((createGame "W4GAME" "1" "w4" "Weir" c4Flow).status = "COMPLETED" ↔
      (createGame "W4GAME" "1" "w4" "Weir" c4Flow).currentRound = 7) ∧
    ((createGame "W4GAME" "1" "w4" "Weir" c4Flow).status = "LOBBY" →
      (createGame "W4GAME" "1" "w4" "Weir" c4Flow).currentRound = 0) :=
  statusMatchesRound _ (HostReachable.init "W4GAME" "1" "w4" "Weir" c4Flow)

/-! ## C5 -/

/-- C5 counterexample: submitting an accusation with an empty accused
name on the concrete session succeeds — no validation error — and
appends a record to the accusing player's list, so the state changes. -/
theorem submitAccusation_empty_counterexample :
    (submitAccusation c5Game "u1" "" 3).isOk = true ∧
    (submitAccusation c5Game "u1" "" 3).toOption.map
        (fun g => g.players.map (fun p => p.accusationsMade.length)) =
      some [1, 0] := by
  constructor <;>
    simp [submitAccusation, submitApply, c5Game, basePlayer, arrayUnion,
      List.find?, Except.isOk, Except.toBool, Except.toOption]

/-- C5 (amended): the engine performs no validation of
`accusedCharacterName` — an empty accused name is accepted like any
other and appended to both the player's list and the session aggregate;
the engine rejects only a call for a player with no document (the
`Player not found` path, surfaced as `Failed to submit accusation`);
the display layer prevents empty submissions by keeping the submit
control disabled while no character is selected. -/
theorem submitAccusation_accepts_empty (g : Game) (u : String) (ts : ℕ) :
    (g.players.find? (fun p => p.userId == u) = none →
      submitAccusation g u "" ts = .error "Failed to submit accusation") ∧
    (∀ p, g.players.find? (fun p => p.userId == u) = some p →
      ∃ g', submitAccusation g u "" ts = .ok g' ∧
        (∃ q ∈ g'.players, q.userId = u ∧
          ({ round := 5.5, accusedCharacter := "", timestamp := ts } :
            PlayerAccusation) ∈ q.accusationsMade) ∧
        ∃ a ∈ g'.accusations, a.accuserId = u ∧ a.accusedCharacter = "") ∧
    submitAccusationButtonDisabled [] = true := by
  refine ⟨?_, ?_, rfl⟩
  · intro h
    simp [submitAccusation, h]
  · intro p hp
    have hpu : p.userId = u := by
      have := List.find?_some hp
      simpa using this
    have hpmem : p ∈ g.players := List.mem_of_find?_eq_some hp
    refine ⟨_, by rw [submitAccusation, hp], ?_, ?_⟩
    · refine ⟨_, List.mem_map_of_mem _ hpmem, ?_⟩
      simp only [if_pos hpu]
      exact ⟨hpu, mem_arrayUnion_self _ _⟩
    · exact ⟨_, mem_arrayUnion_self _ _, rfl, rfl⟩

/-- C5 witness: the amended theorem at the concrete session, with its
no-document clause exercised through the present player `u1`. -/
theorem submitAccusation_accepts_empty_witness :
    (c5Game.players.find? (fun p => p.userId == "u1") =
      some { basePlayer "u1" "Ann" with
              isHost := true
              characterName := some "Miss Scarlett" }) ∧
    (∃ g', submitAccusation c5Game "u1" "" 3 = .ok g' ∧
      (∃ q ∈ g'.players, q.userId = "u1" ∧
        ({ round := 5.5, accusedCharacter := "", timestamp := 3 } :
          PlayerAccusation) ∈ q.accusationsMade) ∧
      ∃ a ∈ g'.accusations, a.accuserId = "u1" ∧ a.accusedCharacter = "") :=
  ⟨by norm_num [c5Game, basePlayer, List.find?],
   (submitAccusation_accepts_empty c5Game "u1" 3).2.1
     { basePlayer "u1" "Ann" with
        isHost := true
        characterName := some "Miss Scarlett" }
     (by norm_num [c5Game, basePlayer, List.find?])⟩

/-! ## C6 -/

/-- C6 counterexample: on a concrete lobby session already at its
`maxPlayers` capacity, `joinGame` for a new identity succeeds and adds
the player past capacity — no `SessionFull` failure is produced by the
operation. -/
theorem joinGame_full_counterexample :
    c6Full.players.length = c6Full.maxPlayers ∧
    joinGame (some c6Full) "u2" "Bea" = .ok (addPlayerToGame c6Full "u2" "Bea" false) ∧
    (addPlayerToGame c6Full "u2" "Bea" false).players.length = 2 ∧
    c6Full.maxPlayers < 2 := by
  refine ⟨?_, ?_, ?_, ?_⟩ <;>
    simp [joinGame, addPlayerToGame, c6Full, basePlayer]

/-- C6 (amended): `joinGame` is idempotent — re-joining an
already-joined identity returns the current session unchanged — and an
unknown code fails (surfaced as `Failed to join game`); the operation
itself enforces no capacity or lifecycle guard: the
session-already-started and session-full rejections are produced by the
join screen's pre-checks before `joinGame` is called. -/
theorem joinGame_idempotent_no_capacity_guard (g : Game) (u n : String) :
    joinGame none u n = .error "Failed to join game" ∧
    (g.players.any (fun p => p.userId = u) = true → joinGame (some g) u n = .ok g) ∧
    (g.status ≠ "LOBBY" →
      joinScreenError g u = some "This game has already started. You cannot join now.") ∧
    (g.status = "LOBBY" → g.maxPlayers ≤ g.players.length →
      joinScreenError g u = some "This game is full. Cannot join.") := by
  refine ⟨rfl, ?_, ?_, ?_⟩
  · intro h
    simp [joinGame, h]
  · intro h
    simp [joinScreenError, h]
  · intro h hful
    simp [joinScreenError, h, hful, Nat.not_lt.mpr hful]

/-- C6 witness: the amended theorem at a full lobby session and at a
started session. -/
theorem joinGame_idempotent_no_capacity_guard_witness :
    (c6Full.players.any (fun p => p.userId = "h6") = true ∧
      joinGame (some c6Full) "h6" "Hire" = .ok c6Full) ∧
    (c6Started.status ≠ "LOBBY" ∧
      joinScreenError c6Started "u2" =
        some "This game has already started. You cannot join now.") ∧
    (c6Full.status = "LOBBY" ∧ c6Full.maxPlayers ≤ c6Full.players.length ∧
      joinScreenError c6Full "u2" = some "This game is full. Cannot join.") :=
  ⟨⟨by simp [c6Full, basePlayer],
    (joinGame_idempotent_no_capacity_guard c6Full "h6" "Hire").2.1
      (by simp [c6Full, basePlayer])⟩,
   ⟨by simp [c6Started, c6Full],
    (joinGame_idempotent_no_capacity_guard c6Started "u2" "Bea").2.2.1
      (by simp [c6Started, c6Full])⟩,
   ⟨by simp [c6Full],
    by simp [c6Full, basePlayer],
    (joinGame_idempotent_no_capacity_guard c6Full "u2" "Bea").2.2.2
      (by simp [c6Full]) (by simp [c6Full, basePlayer])⟩⟩

/-! ## C7 -/

/-- C7: the character-selection operation (`handleSelectCharacter`, the
view-level flow wrapping `selectCharacter`/`assignCharacter`) first
removes the record of the virtual player currently holding the
requested character, if any, then assigns the character to the real
player; for an identity with no membership record the assignment fails
(the player-document update rejects, surfaced as
`Failed to assign character`). -/
theorem assignCharacter_displaces_virtual (chars : List GameCharacter) (g : Game)
    (u c : String)
    (hmem : g.players.any (fun p => p.userId = u) = true)
    (hreal : jsStartsWith u "player_" = false) :
    (∃ g', handleSelectCharacter chars g u c = .ok g' ∧
      (∀ vp, firstVirtualHolder g c = some vp →
        ∀ p ∈ g'.players, p.userId ≠ vp.userId) ∧
      (∃ p ∈ g'.players, p.userId = u ∧ p.characterName = some c)) ∧
    (∀ g2 : Game, g2.players.any (fun p => p.userId = u) = false →
      handleSelectCharacter chars g2 u c = .error "Failed to assign character") := by
  constructor
  · simp only [List.any_eq_true, decide_eq_true_eq] at hmem
    obtain ⟨p0, hp0mem, hp0u⟩ := hmem
    cases hfv : firstVirtualHolder g c with
    | none =>
      have hany : g.players.any (fun p => p.userId = u) = true := by
        simp only [List.any_eq_true, decide_eq_true_eq]
        exact ⟨p0, hp0mem, hp0u⟩
      refine ⟨assignApply chars g u c, ?_, ?_, ?_⟩
      · rw [handleSelectCharacter, hfv]
        simp only [assignCharacter, if_pos hany]
      · intro vp hvp
        simp at hvp
      · refine ⟨_, List.mem_map_of_mem _ hp0mem, ?_⟩
        simp only [if_pos hp0u]
        exact ⟨hp0u, trivial⟩
    | some vp =>
      have hvirt : jsStartsWith vp.userId "player_" = true := by
        have := List.find?_some hfv
        simp only [Bool.and_eq_true, beq_iff_eq] at this
        exact this.2
      have hne : u ≠ vp.userId := by
        intro hh
        rw [hh] at hreal
        simp [hvirt] at hreal
      have hp0mem1 : p0 ∈ (removePlayerFromGame g vp.userId).players := by
        simp only [removePlayerFromGame, List.mem_filter, decide_eq_true_eq]
        exact ⟨hp0mem, by rw [hp0u]; exact hne⟩
      have hany : (removePlayerFromGame g vp.userId).players.any
          (fun p => p.userId = u) = true := by
        simp only [List.any_eq_true, decide_eq_true_eq]
        exact ⟨p0, hp0mem1, hp0u⟩
      refine ⟨assignApply chars (removePlayerFromGame g vp.userId) u c, ?_, ?_, ?_⟩
      · rw [handleSelectCharacter, hfv]
        simp only [assignCharacter, if_pos hany]
      · intro vp' hvp'
        injection hvp' with hvp'
        subst hvp'
        intro p hp
        simp only [assignApply, List.mem_map] at hp
        obtain ⟨q, hq, rfl⟩ := hp
        have hqid : q ∈ g.players.filter (fun p => p.userId ≠ vp.userId) := hq
        have hqne : q.userId ≠ vp.userId := by
          have := (List.mem_filter.mp hqid).2
          simpa using this
        by_cases hqu : q.userId = u <;> simp [hqu, hqne, hne]
      · refine ⟨_, List.mem_map_of_mem _ hp0mem1, ?_⟩
        simp only [if_pos hp0u]
        exact ⟨hp0u, trivial⟩
  · intro g2 hno
    rw [handleSelectCharacter]
    cases hfv2 : firstVirtualHolder g2 c with
    | none =>
      simp [assignCharacter, hno]
    | some vp =>
      have hnone : (removePlayerFromGame g2 vp.userId).players.any
          (fun p => p.userId = u) = false := by
        rw [List.any_eq_false] at hno ⊢
        intro p hp
        exact hno p (List.mem_of_mem_filter hp)
      simp [assignCharacter, hnone]

/-- C7 witness: the scenario with a virtual player `player_1` holding
Colonel Mustard displaced by the real host `h7`. -/
theorem assignCharacter_displaces_virtual_witness :
    (c7Game.players.any (fun p => p.userId = "h7") = true ∧
     jsStartsWith "h7" "player_" = false) ∧
    ((∃ g', handleSelectCharacter c7Chars c7Game "h7" "Colonel Mustard" = .ok g' ∧
      (∀ vp, firstVirtualHolder c7Game "Colonel Mustard" = some vp →
        ∀ p ∈ g'.players, p.userId ≠ vp.userId) ∧
      (∃ p ∈ g'.players, p.userId = "h7" ∧ p.characterName = some "Colonel Mustard")) ∧
    (∀ g2 : Game, g2.players.any (fun p => p.userId = "h7") = false →
      handleSelectCharacter c7Chars g2 "h7" "Colonel Mustard" =
        .error "Failed to assign character")) :=
  ⟨⟨by simp [c7Game, basePlayer], by decide⟩,
   assignCharacter_displaces_virtual c7Chars c7Game "h7" "Colonel Mustard"
     (by simp [c7Game, basePlayer]) (by decide)⟩

/-! ## C8 -/

/-- C8: for a lobby session, `startGame` fails with the capacity guard
error — not a silent no-op — when fewer than the script's `minPlayers`
players have joined, and succeeds once the count meets the minimum,
setting the session in progress with round marker 1. -/
theorem startGame_capacity_guard (g : Game) (_hlobby : g.status = "LOBBY") :
    (g.players.length < g.minPlayers →
      startGame (some g) = .error (startGameCapacityError g)) ∧
    (g.minPlayers ≤ g.players.length →
      ∃ g', startGame (some g) = .ok g' ∧ g'.currentRound = 1 ∧
        g'.status = "IN_PROGRESS") := by
  constructor
  · intro h
    simp [startGame, h]
  · intro h
    refine ⟨{ g with
                status := "IN_PROGRESS"
                currentRound := 1
                roundState := "ROUND_ACTIVE"
                roundData := setKey g.roundData 1 [] }, ?_, rfl, rfl⟩
    simp [startGame, Nat.not_lt.mpr h]

/-- C8 witness: the capacity guard at one joined player against a
two-player minimum, and the successful start at two joined players. -/
theorem startGame_capacity_guard_witness :
    (c8Game1.status = "LOBBY" ∧ c8Game1.players.length < c8Game1.minPlayers ∧
      startGame (some c8Game1) = .error (startGameCapacityError c8Game1)) ∧
    (c8Game2.status = "LOBBY" ∧ c8Game2.minPlayers ≤ c8Game2.players.length ∧
      ∃ g', startGame (some c8Game2) = .ok g' ∧ g'.currentRound = 1 ∧
        g'.status = "IN_PROGRESS") :=
  ⟨⟨by simp [c8Game1], by simp [c8Game1, basePlayer],
    (startGame_capacity_guard c8Game1 (by simp [c8Game1])).1
      (by simp [c8Game1, basePlayer])⟩,
   ⟨by simp [c8Game2, c8Game1], by simp [c8Game2, c8Game1, basePlayer],
    (startGame_capacity_guard c8Game2 (by simp [c8Game2, c8Game1])).2
      (by simp [c8Game2, c8Game1, basePlayer])⟩⟩

/-! ## C10 -/

/-- C10: the catalog's murderer lookups classify a character as a
murderer exactly when its raw `isMurderer` flag is truthy or its name is
the hardcoded string `Penny Prattle`; in particular a character named
Penny Prattle is reported as a murderer even when its raw script data
does not flag it. -/
theorem murderer_lookup_penny_prattle (cs : List RawCharacter) (c : RawCharacter)
    (hflag : c.isMurderer = false) (hname : c.character = "Penny Prattle")
    (hmem : c ∈ cs) :
    parseCharacter c ∈ getMurdererCharacters (parseCharacters cs) ∧
    (parseCharacter c).isMurderer = true ∧
    (∀ ch, ch ∈ getMurdererCharacters (parseCharacters cs) ↔
      ∃ r ∈ cs, parseCharacter r = ch ∧
        (r.isMurderer = true ∨ r.character = "Penny Prattle")) ∧
    getMurdererCharacter (parseCharacters cs) =
      (cs.find? (fun r => r.isMurderer || r.character == "Penny Prattle")).map
        parseCharacter := by
  refine ⟨?_, ?_, ?_, ?_⟩
  · simp only [getMurdererCharacters, parseCharacters, List.mem_filter]
    exact ⟨List.mem_map_of_mem _ hmem, by simp [parseCharacter, hflag, hname]⟩
  · simp [parseCharacter, hflag, hname]
  · intro ch
    constructor
    · intro hch
      simp only [getMurdererCharacters, parseCharacters, List.mem_filter,
        List.mem_map] at hch
      obtain ⟨⟨r, hr, rfl⟩, hmur⟩ := hch
      refine ⟨r, hr, rfl, ?_⟩
      simpa [parseCharacter, Bool.or_eq_true, beq_iff_eq] using hmur
    · rintro ⟨r, hr, rfl, hor⟩
      simp only [getMurdererCharacters, parseCharacters, List.mem_filter,
        List.mem_map]
      refine ⟨⟨r, hr, rfl⟩, ?_⟩
      rcases hor with h | h <;> simp [parseCharacter, h]
  · rw [getMurdererCharacter, parseCharacters, List.find?_map]
    rfl

/-- C10 witness: a roster whose Penny Prattle entry carries no murderer
flag still reports Penny Prattle among the murderers. -/
theorem murderer_lookup_penny_prattle_witness :
    ((⟨"Penny Prattle", false⟩ : RawCharacter).isMurderer = false ∧
     (⟨"Penny Prattle", false⟩ : RawCharacter).character = "Penny Prattle" ∧
     (⟨"Penny Prattle", false⟩ : RawCharacter) ∈ c10Raw) ∧
    parseCharacter ⟨"Penny Prattle", false⟩ ∈
      getMurdererCharacters (parseCharacters c10Raw) :=
  ⟨⟨rfl, rfl, by simp [c10Raw]⟩,
   (murderer_lookup_penny_prattle c10Raw ⟨"Penny Prattle", false⟩ rfl rfl
     (by simp [c10Raw])).1⟩

/-! ## C9 -/

theorem votesFor_pushVote (m : List (String × List String)) (k v c u : String) :
    u ∈ votesFor (pushVote m k v) c ↔
      u ∈ votesFor m c ∨ (k = c ∧ v = u) := by
  by_cases hkc : k = c
  · subst hkc
    rw [votesFor, pushVote, getKey_setKey_self]
    simp [votesFor, eq_comm]
  · rw [votesFor, pushVote, getKey_setKey_ne _ _ _ _ (Ne.symm hkc)]
    simp [votesFor, hkc]

theorem votesFor_playerVotes (p : Player) (m : List (String × List String))
    (c u : String) :
    u ∈ votesFor (playerVotes m p) c ↔
      u ∈ votesFor m c ∨
        ∃ a ∈ p.accusationsMade, a.round = 5.5 ∧ a.accusedCharacter = c ∧
          c ≠ "" ∧ p.username = u := by
  rw [playerVotes]
  induction p.accusationsMade generalizing m with
  | nil => simp
  | cons a t ih =>
    rw [List.foldl_cons]
    rw [ih]
    by_cases hc : (a.round == 5.5 && a.accusedCharacter != "") = true
    · rw [if_pos hc]
      rw [votesFor_pushVote]
      simp only [Bool.and_eq_true, beq_iff_eq, bne_iff_ne] at hc
      obtain ⟨hr, hne⟩ := hc
      constructor
      · rintro ((h | ⟨hk, hv⟩) | ⟨a', ha', h1, h2, h3, h4⟩)
        · exact Or.inl h
        · exact Or.inr ⟨a, List.mem_cons_self a t, hr, hk, hk ▸ hne, hv⟩
        · exact Or.inr ⟨a', List.mem_cons_of_mem a ha', h1, h2, h3, h4⟩
      · rintro (h | ⟨a', ha', h1, h2, h3, h4⟩)
        · exact Or.inl (Or.inl h)
        · rcases List.mem_cons.mp ha' with rfl | ha't
          · exact Or.inl (Or.inr ⟨h2, h4⟩)
          · exact Or.inr ⟨a', ha't, h1, h2, h3, h4⟩
    · rw [if_neg hc]
      simp only [Bool.and_eq_true, beq_iff_eq, bne_iff_ne, not_and_or,
        not_not] at hc
      constructor
      · rintro (h | ⟨a', ha', h1, h2, h3, h4⟩)
        · exact Or.inl h
        · exact Or.inr ⟨a', List.mem_cons_of_mem a ha', h1, h2, h3, h4⟩
      · rintro (h | ⟨a', ha', h1, h2, h3, h4⟩)
        · exact Or.inl h
        · rcases List.mem_cons.mp ha' with rfl | ha't
          · rcases hc with hc | hc
            · exact absurd h1 hc
            · exact absurd (h2 ▸ hc) h3
          · exact Or.inr ⟨a', ha't, h1, h2, h3, h4⟩

theorem votesFor_foldl (ps : List Player) (m : List (String × List String))
    (c u : String) :
    u ∈ votesFor (ps.foldl playerVotes m) c ↔
      u ∈ votesFor m c ∨
        ∃ q ∈ ps, q.username = u ∧
          ∃ a ∈ q.accusationsMade, a.round = 5.5 ∧ a.accusedCharacter = c ∧
            c ≠ "" := by
  induction ps generalizing m with
  | nil => simp
  | cons p t ih =>
    rw [List.foldl_cons, ih, votesFor_playerVotes]
    constructor
    · rintro ((h | ⟨a, ha, h1, h2, h3, h4⟩) | ⟨q, hq, h5, h6⟩)
      · exact Or.inl h
      · exact Or.inr ⟨p, List.mem_cons_self p t, h4, a, ha, h1, h2, h3⟩
      · exact Or.inr ⟨q, List.mem_cons_of_mem p hq, h5, h6⟩
    · rintro (h | ⟨q, hq, h5, a, ha, h1, h2, h3⟩)
      · exact Or.inl (Or.inl h)
      · rcases List.mem_cons.mp hq with rfl | hqt
        · exact Or.inl (Or.inr ⟨a, ha, h1, h2, h3, h5⟩)
        · exact Or.inr ⟨q, hqt, h5, a, ha, h1, h2, h3⟩

theorem votesFor_all_nil (l : List (String × List String)) (c : String)
    (h : ∀ e ∈ l, e.2 = ([] : List String)) : votesFor l c = [] := by
  induction l with
  | nil => simp [votesFor, getKey]
  | cons e t ih =>
    by_cases hc : e.1 = c
    · have : e.2 = [] := h e (List.mem_cons_self e t)
      simp [votesFor, getKey, hc, this]
    · rw [votesFor, getKey, if_neg hc]
      exact ih (fun x hx => h x (List.mem_cons_of_mem e hx))

theorem setKey_all_nil (l : List (String × List String)) (k : String)
    (h : ∀ e ∈ l, e.2 = ([] : List String)) :
    ∀ e ∈ setKey l k ([] : List String), e.2 = ([] : List String) := by
  induction l with
  | nil => simp [setKey]
  | cons e t ih =>
    by_cases hk : e.1 = k
    · rw [setKey, if_pos hk]
      intro x hx
      rcases List.mem_cons.mp hx with rfl | hxt
      · rfl
      · exact h x (List.mem_cons_of_mem _ hxt)
    · rw [setKey, if_neg hk]
      intro x hx
      rcases List.mem_cons.mp hx with rfl | hxt
      · exact h _ (List.mem_cons_self _ _)
      · exact ih (fun y hy => h y (List.mem_cons_of_mem _ hy)) x hxt

theorem votesFor_voteInit (chars : List GameCharacter)
    (hum : Option GameCharacter) (c : String) :
    votesFor (voteInit chars hum) c = [] := by
  apply votesFor_all_nil
  have hbase : ∀ e ∈ chars.map
      (fun ch => (ch.characterName, ([] : List String))), e.2 = ([] : List String) := by
    intro e he
    obtain ⟨ch, _, rfl⟩ := List.mem_map.mp he
    rfl
  cases hum with
  | none => exact hbase
  | some h => exact setKey_all_nil _ _ hbase

theorem voteTotals_mem (chars : List GameCharacter) (hum : Option GameCharacter)
    (g : Game) (c u : String) :
    u ∈ votesFor (getAccusationVoteTotals chars hum g) c ↔
      ∃ q ∈ g.players, q.username = u ∧
        ∃ a ∈ q.accusationsMade, a.round = 5.5 ∧ a.accusedCharacter = c ∧
          c ≠ "" := by
  rw [getAccusationVoteTotals, votesFor_foldl, votesFor_voteInit]
  simp

/-- C9: accusation submission is cumulative — two different accusations
by the same player append one record each to the player's own list and
to the session aggregate, keeping both — and the vote totals map each
character name to exactly the identities of the players with an
accusation of that character tagged with the accusation-round ordinal
5.5. -/
theorem submitAccusation_cumulative (chars : List GameCharacter)
    (hum : Option GameCharacter) (g : Game) (u c1 c2 : String) (t1 t2 : ℕ)
    (p : Player)
    (hp : g.players.find? (fun q => q.userId == u) = some p)
    (hcne : c1 ≠ c2) (hc1 : c1 ≠ "")
    (hm1 : (⟨5.5, c1, t1⟩ : PlayerAccusation) ∉ p.accusationsMade)
    (hm2 : (⟨5.5, c2, t2⟩ : PlayerAccusation) ∉ p.accusationsMade)
    (hga1 : (⟨"accusation_" ++ toString t1, u, p.characterName, c1, t1, false⟩ :
      GameAccusation) ∉ g.accusations)
    (hga2 : (⟨"accusation_" ++ toString t2, u, p.characterName, c2, t2, false⟩ :
      GameAccusation) ∉ g.accusations) :
    ∃ g1 g2, submitAccusation g u c1 t1 = .ok g1 ∧
      submitAccusation g1 u c2 t2 = .ok g2 ∧
      (∃ q ∈ g2.players, q.userId = u ∧
        q.accusationsMade = p.accusationsMade ++
          [⟨5.5, c1, t1⟩, ⟨5.5, c2, t2⟩]) ∧
      g2.accusations = g.accusations ++
        [⟨"accusation_" ++ toString t1, u, p.characterName, c1, t1, false⟩,
         ⟨"accusation_" ++ toString t2, u, p.characterName, c2, t2, false⟩] ∧
      p.username ∈ votesFor (getAccusationVoteTotals chars hum g2) c1 ∧
      (∀ g0 : Game, ∀ cname uname,
        uname ∈ votesFor (getAccusationVoteTotals chars hum g0) cname ↔
          ∃ q ∈ g0.players, q.username = uname ∧
            ∃ a ∈ q.accusationsMade, a.round = 5.5 ∧
              a.accusedCharacter = cname ∧ cname ≠ "") := by
  have hpu : p.userId = u := by simpa using List.find?_some hp
  have hpmem : p ∈ g.players := List.mem_of_find?_eq_some hp
  have hr21 : (⟨5.5, c2, t2⟩ : PlayerAccusation) ≠ ⟨5.5, c1, t1⟩ := by
    intro hh
    exact hcne (congrArg PlayerAccusation.accusedCharacter hh).symm
  have hf1p : (fun q : Player => if q.userId = u then
        { q with accusationsMade := arrayUnion q.accusationsMade ⟨5.5, c1, t1⟩ }
      else q) p =
      { p with accusationsMade := p.accusationsMade ++ [⟨5.5, c1, t1⟩] } := by
    show (if p.userId = u then
        { p with accusationsMade :=
            arrayUnion p.accusationsMade (⟨5.5, c1, t1⟩ : PlayerAccusation) }
      else p) = _
    rw [if_pos hpu, arrayUnion_of_not_mem _ _ hm1]
  have hG1players : (submitApply g u c1 t1 p).players =
      g.players.map (fun q : Player => if q.userId = u then
        { q with accusationsMade := arrayUnion q.accusationsMade ⟨5.5, c1, t1⟩ }
      else q) := rfl
  have hG1acc : (submitApply g u c1 t1 p).accusations =
      g.accusations ++
        [⟨"accusation_" ++ toString t1, u, p.characterName, c1, t1, false⟩] :=
    arrayUnion_of_not_mem _ _ hga1
  have hfind2 : (submitApply g u c1 t1 p).players.find? (fun q => q.userId == u) =
      some { p with accusationsMade := p.accusationsMade ++ [⟨5.5, c1, t1⟩] } := by
    rw [hG1players, List.find?_map]
    have hcomp : ((fun q : Player => q.userId == u) ∘ (fun q : Player =>
        if q.userId = u then
          { q with accusationsMade := arrayUnion q.accusationsMade ⟨5.5, c1, t1⟩ }
        else q)) = (fun q : Player => q.userId == u) := by
      funext q
      by_cases hq : q.userId = u <;> simp [hq]
    rw [hcomp, hp]
    simp only [Option.map_some', hf1p]
  have hP1mem : ({ p with accusationsMade := p.accusationsMade ++ [⟨5.5, c1, t1⟩] } :
      Player) ∈ (submitApply g u c1 t1 p).players := by
    rw [hG1players, ← hf1p]
    exact List.mem_map_of_mem _ hpmem
  have hm2' : (⟨5.5, c2, t2⟩ : PlayerAccusation) ∉
      p.accusationsMade ++ [⟨5.5, c1, t1⟩] := by
    intro hh
    rcases List.mem_append.mp hh with hh | hh
    · exact hm2 hh
    · exact hr21 (List.mem_singleton.mp hh)
  refine ⟨submitApply g u c1 t1 p,
    submitApply (submitApply g u c1 t1 p) u c2 t2
      { p with accusationsMade := p.accusationsMade ++ [⟨5.5, c1, t1⟩] },
    by rw [submitAccusation, hp],
    by rw [submitAccusation, hfind2],
    ?_, ?_, ?_, ?_⟩
  · refine ⟨_, List.mem_map_of_mem _ hP1mem, ?_, ?_⟩
    · simp [hpu]
    · simp [hpu, arrayUnion_of_not_mem _ _ hm2']
  · have ha21 : (⟨"accusation_" ++ toString t2, u, p.characterName, c2, t2, false⟩ :
        GameAccusation) ∉ (submitApply g u c1 t1 p).accusations := by
      rw [hG1acc]
      intro hh
      rcases List.mem_append.mp hh with hh | hh
      · exact hga2 hh
      · exact hcne (congrArg GameAccusation.accusedCharacter
          (List.mem_singleton.mp hh)).symm
    show arrayUnion (submitApply g u c1 t1 p).accusations _ = _
    rw [arrayUnion_of_not_mem _ _ ha21, hG1acc]
    simp
  · refine (voteTotals_mem chars hum _ c1 p.username).mpr ?_
    refine ⟨_, List.mem_map_of_mem _ hP1mem, ?_, ⟨5.5, c1, t1⟩, ?_, rfl, rfl, hc1⟩
    · simp [hpu]
    · simp [hpu, arrayUnion_of_not_mem _ _ hm2']
  · exact fun g0 cname uname => voteTotals_mem chars hum g0 cname uname

/-- C9 witness: two accusations by player `v1` at the concrete session,
both kept, with the vote totals crediting `Ada` for Colonel Mustard. -/
theorem submitAccusation_cumulative_witness :
    ("Colonel Mustard" ≠ "Miss Scarlett") ∧
    (∃ g1 g2, submitAccusation c9Game "v1" "Colonel Mustard" 10 = .ok g1 ∧
      submitAccusation g1 "v1" "Miss Scarlett" 11 = .ok g2 ∧
      (∃ q ∈ g2.players, q.userId = "v1" ∧
        q.accusationsMade =
          [⟨5.5, "Colonel Mustard", 10⟩, ⟨5.5, "Miss Scarlett", 11⟩]) ∧
      g2.accusations =
        [⟨"accusation_" ++ toString 10, "v1", some "Miss Scarlett",
            "Colonel Mustard", 10, false⟩,
         ⟨"accusation_" ++ toString 11, "v1", some "Miss Scarlett",
            "Miss Scarlett", 11, false⟩] ∧
      "Ada" ∈ votesFor (getAccusationVoteTotals c9Chars none g2) "Colonel Mustard" ∧
      (∀ g0 : Game, ∀ cname uname,
        uname ∈ votesFor (getAccusationVoteTotals c9Chars none g0) cname ↔
          ∃ q ∈ g0.players, q.username = uname ∧
            ∃ a ∈ q.accusationsMade, a.round = 5.5 ∧
              a.accusedCharacter = cname ∧ cname ≠ "")) :=
  ⟨by decide,
   submitAccusation_cumulative c9Chars none c9Game "v1" "Colonel Mustard"
     "Miss Scarlett" 10 11
     { basePlayer "v1" "Ada" with isHost := true, characterName := some "Miss Scarlett" }
     (by simp [c9Game, basePlayer, List.find?]) (by decide) (by decide)
     (by simp [basePlayer]) (by simp [basePlayer])
     (by simp [c9Game]) (by simp [c9Game])⟩
